import Mathlib

/-!
# Verification of the notpy interpreter core (lexer + evaluator)

A shallow embedding of the two source files of the repository:

* `src/lexer.py` — a stateful single-character-lookahead tokenizer with
  one-token pushback (`Stream`, the token dataclasses, and the `lexer`
  class with `number` / `identifier` / `string` / `operator` /
  `next_token` / `peek_token` / `advance`).
* `src/eval.py` — a tree-walking evaluator `eval_ast` over an AST of
  literals, binary operations, `let`-bindings, a mutable namespace
  (`get`/`set`), `if`, `while` and `block`, with values being exact
  rationals, booleans and strings.

Modelling conventions:

* The Python `Stream` is a source string plus an integer cursor; every
  pushback (`prev_char`) in the source immediately follows the read of
  the very character being pushed back, so the stream is modelled by the
  list of not-yet-consumed characters (`next_char` pops the head,
  pushback re-conses the character just read).
* Python exceptions are modelled by explicit result constructors that
  also carry the state (stream / namespace) at the moment the exception
  propagates, since the Python objects are mutated in place.
* The evaluator's unbounded `while` loop is modelled with a fuel
  parameter (structural recursion on the fuel); running out of fuel is
  the separate `timeout` result, distinct from every program error.
* Python machine integers do not appear: the sources use arbitrary
  precision `int` and `Fraction`, modelled by `Nat`/`ℚ`.
-/

namespace NotPy

/-! ## Lexer (`src/lexer.py`) -/

/-- The exceptions of `src/lexer.py`: `EndOfTokens` (reading past the end
of the source) and `TokenError` (a failed `match`). -/
inductive LexError where
  | EndOfTokens : LexError
  | TokenError : LexError
deriving DecidableEq, Repr

/-- The token dataclasses `Num`, `Keyword`, `Identifier`, `String`,
`Operator`, `EndOfLine` of `src/lexer.py`, combined into the union
`TokenType`.  The dataclass named `String` is rendered as the
constructor `Str` (the name `String` is Lean's string type). -/
inductive TokenType where
  | Num (n : Nat)
  | Keyword (word : String)
  | Identifier (word : String)
  | Str (s : String)
  | Operator (op : String)
  | EndOfLine (EOL : String)
deriving DecidableEq, Repr

/-- The `keywords` list of `src/lexer.py` (the split of the literal string; the
duplicate `"print"` of the source is kept). -/
def keywords : List String :=
  ["print", "var", "true", "false", "print", "if", "else", "then",
   "for", "while", "return", "end", "do", "List", "let", "in"]

/-- The `operators` list of `src/lexer.py`: the split of
`", . ; + - * % > < >= <= == ! != ** ^ ( ) [ ] ="`.  Note that `"&"` and
`"|"` are NOT in this list. -/
def operators : List String :=
  [",", ".", ";", "+", "-", "*", "%", ">", "<", ">=", "<=", "==",
   "!", "!=", "**", "^", "(", ")", "[", "]", "="]

/-- The whitespace string `white_space = " \t\n"` of `src/lexer.py`, as its character list. -/
def white_space : List Char := [' ', '\t', '\n']

/-- The remaining (not yet consumed) input of the Python `Stream`:
`source[pos:]` as a character list. -/
abbrev LexStream := List Char

/-- Result of a scanning routine: either a produced token value together
with the stream afterwards (`tok`; the token is an `Option` because
Python's `next_token` falls off its `match` and returns `None` for an
unrecognized character), or a propagating exception together with the
stream at the moment it was raised (`fail`). -/
inductive ScanRes where
  | tok (t : Option TokenType) (s : LexStream)
  | fail (e : LexError) (s : LexStream)
deriving DecidableEq, Repr

namespace lexer

/-- Method `lexer.number`: accumulate a maximal run of digits into `Num n`,
pushing the first non-digit back; end of input just ends the number
(the `EndOfTokens` from `next_char` is caught). -/
def number : LexStream → Nat → TokenType × LexStream
  | [], n => (.Num n, [])
  | c :: rest, n =>
    if c.isDigit then number rest (n * 10 + (c.toNat - 48))
    else (.Num n, c :: rest)

/-- Method `lexer.identifier`: accumulate a maximal run of alphabetic
characters, then classify the word as `Keyword` when it is in
`keywords`, else `Identifier`. -/
def identifier : LexStream → String → TokenType × LexStream
  | [], word =>
    (if word ∈ keywords then .Keyword word else .Identifier word, [])
  | c :: rest, word =>
    if c.isAlpha then identifier rest (word.push c)
    else (if word ∈ keywords then .Keyword word else .Identifier word,
          c :: rest)

/-- Method `lexer.string`: accumulate characters until the closing double
quote; reaching end of input re-raises `EndOfTokens` (the source's
`except EndOfTokens: raise EndOfTokens()` — there is no separate
unterminated-string error class anywhere in the repository). -/
def string : LexStream → String → ScanRes
  | [], _ => .fail .EndOfTokens []
  | c :: rest, s =>
    if c = '\"' then .tok (some (.Str s)) rest
    else string rest (s.push c)

/-- Method `lexer.operator`: two-character disambiguation.  The inner
`next_char` can raise `EndOfTokens`, which propagates. -/
def operator (s : LexStream) (c : Char) : ScanRes :=
  if c = '=' then
    match s with
    | [] => .fail .EndOfTokens []
    | c2 :: rest =>
      if c2 = '=' then .tok (some (.Operator "==")) rest
      else .tok (some (.Operator "=")) (c2 :: rest)
  else if c = '!' then
    match s with
    | [] => .fail .EndOfTokens []
    | c2 :: rest =>
      if c2 = '=' then .tok (some (.Operator "!=")) rest
      else .tok (some (.Operator "!")) (c2 :: rest)
  else if c = '>' then
    match s with
    | [] => .fail .EndOfTokens []
    | c2 :: rest =>
      if c2 = '=' then .tok (some (.Operator ">=")) rest
      else .tok (some (.Operator ">")) (c2 :: rest)
  else if c = '<' then
    match s with
    | [] => .fail .EndOfTokens []
    | c2 :: rest =>
      if c2 = '=' then .tok (some (.Operator "<=")) rest
      else .tok (some (.Operator "<")) (c2 :: rest)
  else if c = '&' then
    match s with
    | [] => .fail .EndOfTokens []
    | c2 :: rest =>
      if c2 = '&' then .tok (some (.Operator "and")) rest
      else .tok (some (.Operator "&")) (c2 :: rest)
  else if c = '|' then
    match s with
    | [] => .fail .EndOfTokens []
    | c2 :: rest =>
      if c2 = '|' then .tok (some (.Operator "or")) rest
      else .tok (some (.Operator "|")) (c2 :: rest)
  else if c = '^' then
    match s with
    | [] => .fail .EndOfTokens []
    | c2 :: rest =>
      if c2 = '^' then .tok (some (.Operator "**")) rest
      else .tok (some (.Operator "^")) (c2 :: rest)
  else .tok (some (.Operator (String.singleton c))) s

/-- Method `lexer.next_token`: read one character and dispatch.  The guards are
tried in the source's order: membership in `operators`, digit, letter,
double quote, whitespace (skip and recurse).  A character matching no
guard makes the Python `match` fall through, so the method returns
`None` — modelled as `.tok none` — with the character consumed. -/
def next_token : LexStream → ScanRes
  | [] => .fail .EndOfTokens []
  | c :: rest =>
    if operators.contains (String.singleton c) then operator rest c
    else if c.isDigit then
      let p := number rest (c.toNat - 48)
      .tok (some p.1) p.2
    else if c.isAlpha then
      let p := identifier rest (String.singleton c)
      .tok (some p.1) p.2
    else if c = '\"' then string rest ""
    else if white_space.contains c then next_token rest
    else .tok none rest

end lexer

/-- The `lexer` dataclass state: the stream and the one-token `save`
slot (`None` both when empty and when `next_token` returned `None`,
exactly as in the source, where the two are indistinguishable). -/
structure Lexer where
  stream : LexStream
  save : Option TokenType := none
deriving DecidableEq, Repr

/-- Constructor `lexer.lexerFromStream`. -/
def lexerFromStream (s : LexStream) : Lexer := { stream := s, save := none }

namespace lexer

/-- Method `lexer.peek_token`: return the saved token when present; otherwise
run `next_token`, store its result (possibly `None`) in `save` and
return it; an `EndOfTokens` from the scan is caught and `None` is
returned (with the stream left where the scan stopped). -/
def peek_token (l : Lexer) : Option TokenType × Lexer :=
  match l.save with
  | some t => (some t, l)
  | none =>
    match next_token l.stream with
    | .tok t? s' => (t?, { stream := s', save := t? })
    | .fail _ s' => (none, { stream := s', save := none })

/-- Method `lexer.advance`: clear the save slot when it is full; otherwise call
`peek_token` (which fills the save slot) and, when it returned a token,
call the raw `next_token` once more, discarding its result; an
`EndOfTokens` from that raw call propagates out of `advance`, as does
the explicit `raise EndOfTokens()` when no token is available. -/
def advance (l : Lexer) : Option LexError × Lexer :=
  match l.save with
  | some _ => (none, { l with save := none })
  | none =>
    match peek_token l with
    | (some _, l') =>
      match next_token l'.stream with
      | .tok _ s' => (none, { l' with stream := s' })
      | .fail e s' => (some e, { l' with stream := s' })
    | (none, l') => (some .EndOfTokens, l')

/-- The iteration protocol (`__iter__`/`__next__`): repeatedly call
`next_token`, yielding each returned value (including the `None` of an
unrecognized character) until `EndOfTokens` stops the iteration.  The
`Nat` is fuel; `none` means the fuel ran out before the iteration
finished, `some ts` that the iteration terminated with exactly the
yields `ts`. -/
def tokens : Nat → LexStream → Option (List (Option TokenType))
  | 0, _ => none
  | fuel + 1, s =>
    match next_token s with
    | .fail _ _ => some []
    | .tok t? s' => (tokens fuel s').map (fun ts => t? :: ts)

end lexer

example : lexer.next_token "if x".toList = .tok (some (.Keyword "if")) " x".toList := by rfl

example : lexer.next_token "22 +".toList = .tok (some (.Num 22)) " +".toList := by rfl

example : lexer.next_token ">= 3".toList = .tok (some (.Operator ">=")) " 3".toList := by rfl

/-! ## Evaluator (`src/eval.py`) -/

/-- The value union `Value = Fraction | bool | str` of `src/eval.py`. -/
inductive Value where
  | num (q : ℚ)
  | bool (b : Bool)
  | str (s : String)
deriving DecidableEq, Repr

/-- The exceptions `eval_ast` can raise: the explicit
`Exception("Variable not defined")`, `Exception("Division by zero")` and
`ProgramNotSupported`, plus Python's own `ZeroDivisionError` (from a
`Fraction` division whose real-environment divisor is zero) and
`TypeError` (an operator applied to operands of unsupported types). -/
inductive EvalError where
  | undefinedVariable : EvalError
  | divisionByZero : EvalError
  | programNotSupported : EvalError
  | zeroDivisionError : EvalError
  | typeError : EvalError
deriving DecidableEq, Repr

/-- The AST of `src/eval.py` (the claims' fragment: the
`string_operation` node, which no claim mentions, is not embedded; every
other variant is).  The wrapper dataclasses `let_var` and `mut_var`
inside `let`/`get`/`set` hold only a name, so those nodes carry the name
directly; the constructor for the dataclass `let` is named `letE`
(`let` is a Lean keyword). -/
inductive AST where
  | numeric_literal (value : ℚ)
  | bool_literal (value : Bool)
  | string_literal (value : String)
  | binary_operation (op : String) (left right : AST)
  | let_var (name : String)
  | letE (name : String) (e1 e2 : AST)
  | mut_var (name : String)
  | get (name : String)
  | set (name : String) (value : AST)
  | if_statement (condition if_exp else_exp : AST)
  | while_loop (condition body : AST)
  | block (exps : List AST)

/-- A Python dict of values, as seen through lookups: the
`lexical_scope` and `name_space` dictionaries of `eval_ast`. -/
abbrev Env := String → Option Value

/-- A fresh empty dictionary (the `{}` defaults of `eval_ast`). -/
def emptyEnv : Env := fun _ => none

/-- Dictionary write `d[k] = v` (also the one-entry extension
`lexical_scope | .{name: temp}.` of the `let` case, which never touches
the original). -/
def envSet (d : Env) (key : String) (v : Value) : Env :=
  fun k => if k = key then some v else d k

/-- Result of one `eval_ast` call: a value or a propagating exception,
each together with the `name_space` dictionary as the call leaves it
(Python mutates it in place, so an exception still leaves earlier
writes visible to the caller); `timeout` is fuel exhaustion of the
embedding, distinct from every Python exception. -/
inductive Res where
  | ok (v : Value) (ns : Env)
  | err (e : EvalError) (ns : Env)
  | timeout

/-- The value of a result, when it is one. -/
def Res.val : Res → Option Value
  | .ok v _ => some v
  | _ => none

/-- The namespace a result leaves behind (`emptyEnv` for a timeout). -/
def Res.nsD : Res → Env
  | .ok _ ns => ns
  | .err _ ns => ns
  | .timeout => emptyEnv

/-- Python truthiness of a `Value`: nonzero rationals, `True`, and
nonempty strings are truthy. -/
def truthy : Value → Bool
  | .num q => q != 0
  | .bool b => b
  | .str s => s != ""

/-- The numeric reading Python's arithmetic gives a `Value`: a
`Fraction` is itself, a `bool` is its integer value (`True == 1`,
`False == 0`); a string has none. -/
def toRatNum : Value → Option ℚ
  | .num q => some q
  | .bool b => some (if b then 1 else 0)
  | .str _ => none

/-- The zero test `eval_ast(right) == 0` of the division case:
`Fraction(0)` and `False` equal `0`; no string does. -/
def pyZero : Value → Bool
  | .num q => q == 0
  | .bool b => !b
  | .str _ => false

/-- Python `==` on two `Value`s: numbers and booleans compare by
numeric value, strings compare with strings, and a string never equals
a number or boolean. -/
def pyEq : Value → Value → Bool
  | .str s, .str t => s == t
  | .str _, _ => false
  | _, .str _ => false
  | a, b =>
    match toRatNum a, toRatNum b with
    | some x, some y => x == y
    | _, _ => false

/-- Python `<` on two `Value`s: numeric for numbers/booleans,
lexicographic for two strings, `TypeError` (modelled as `none`) for a
string against a number or boolean. -/
def pyLt : Value → Value → Option Bool
  | .str s, .str t => some (compare s t == Ordering.lt)
  | a, b =>
    match toRatNum a, toRatNum b with
    | some x, some y => some (x < y)
    | _, _ => none

/-- The merge-back loop closing the `block` case of `eval_ast`:
`for i in local_namespace: if i in name_space: name_space[i] =
local_namespace[i]`.  Seen through lookups: a key present in both
dictionaries takes the local copy's value; every other key keeps the
original dictionary's binding.  (The loop only ever rewrites keys that
already exist, so the iteration order of the dict is immaterial.) -/
def mergeBack (name_space local_namespace : Env) : Env :=
  fun k =>
    match local_namespace k, name_space k with
    | some v, some _ => some v
    | _, _ => name_space k

/-- The evaluator `eval_ast` of `src/eval.py`, over fuel (first argument; structural
recursion).  Every Python recursive call appears with fuel one lower.
The `while` loop iterates by re-evaluating the same node at lower fuel;
the `block` case folds its expression list over the local copy of the
namespace, exactly as the source's `for` loop does, then merges back.
Arithmetic on string operands (where Python would concatenate and then
attempt a `Fraction` conversion) is outside every claim and is modelled
as `typeError`; likewise the float fallback of `**` on a non-integer
exponent. -/
def eval_ast : Nat → AST → Env → Env → Res
  | 0, _, _, _ => .timeout
  | fuel + 1, ast, lexical_scope, name_space =>
    match ast with
    | .let_var name =>
      match lexical_scope name with
      | some v => .ok v name_space
      | none => .err .undefinedVariable name_space
    | .letE name e1 e2 =>
      match eval_ast fuel e1 lexical_scope name_space with
      | .ok temp ns1 => eval_ast fuel e2 (envSet lexical_scope name temp) ns1
      | r => r
    | .mut_var name =>
      match name_space name with
      | some v => .ok v name_space
      | none => .err .undefinedVariable name_space
    | .get name =>
      match name_space name with
      | some v => .ok v name_space
      | none => .err .undefinedVariable name_space
    | .set name value =>
      match eval_ast fuel value lexical_scope name_space with
      | .ok temp ns1 => .ok (.num 0) (envSet ns1 name temp)
      | r => r
    | .numeric_literal q => .ok (.num q) name_space
    | .bool_literal b => .ok (.bool b) name_space
    | .string_literal s => .ok (.str s) name_space
    | .binary_operation op left right =>
      match op with
      | "+" =>
        match eval_ast fuel left lexical_scope name_space with
        | .ok vl ns1 =>
          match eval_ast fuel right lexical_scope ns1 with
          | .ok vr ns2 =>
            match toRatNum vl, toRatNum vr with
            | some x, some y => .ok (.num (x + y)) ns2
            | _, _ => .err .typeError ns2
          | r => r
        | r => r
      | "-" =>
        match eval_ast fuel left lexical_scope name_space with
        | .ok vl ns1 =>
          match eval_ast fuel right lexical_scope ns1 with
          | .ok vr ns2 =>
            match toRatNum vl, toRatNum vr with
            | some x, some y => .ok (.num (x - y)) ns2
            | _, _ => .err .typeError ns2
          | r => r
        | r => r
      | "*" =>
        match eval_ast fuel left lexical_scope name_space with
        | .ok vl ns1 =>
          match eval_ast fuel right lexical_scope ns1 with
          | .ok vr ns2 =>
            match toRatNum vl, toRatNum vr with
            | some x, some y => .ok (.num (x * y)) ns2
            | _, _ => .err .typeError ns2
          | r => r
        | r => r
      | "/" =>
        -- `if eval_ast(right) == 0:` — the divisor first evaluated with
        -- the DEFAULT empty lexical scope and namespace, purely for the
        -- zero test; an exception there propagates.
        match eval_ast fuel right emptyEnv emptyEnv with
        | .ok v0 _ =>
          if pyZero v0 then .err .divisionByZero name_space
          else
            match eval_ast fuel left lexical_scope name_space with
            | .ok vl ns1 =>
              match eval_ast fuel right lexical_scope ns1 with
              | .ok vr ns2 =>
                match toRatNum vl, toRatNum vr with
                | some x, some y =>
                  if y = 0 then .err .zeroDivisionError ns2
                  else .ok (.num (x / y)) ns2
                | _, _ => .err .typeError ns2
              | r => r
            | r => r
        | .err e _ => .err e name_space
        | .timeout => .timeout
      | "**" =>
        match eval_ast fuel left lexical_scope name_space with
        | .ok vl ns1 =>
          match eval_ast fuel right lexical_scope ns1 with
          | .ok vr ns2 =>
            match toRatNum vl, toRatNum vr with
            | some x, some y =>
              if y.den = 1 then
                if 0 ≤ y.num then .ok (.num (x ^ y.num.toNat)) ns2
                else if x = 0 then .err .zeroDivisionError ns2
                else .ok (.num (x ^ y.num)) ns2
              else .err .typeError ns2
            | _, _ => .err .typeError ns2
          | r => r
        | r => r
      | "==" =>
        match eval_ast fuel left lexical_scope name_space with
        | .ok vl ns1 =>
          match eval_ast fuel right lexical_scope ns1 with
          | .ok vr ns2 => .ok (.bool (pyEq vl vr)) ns2
          | r => r
        | r => r
      | "!=" =>
        match eval_ast fuel left lexical_scope name_space with
        | .ok vl ns1 =>
          match eval_ast fuel right lexical_scope ns1 with
          | .ok vr ns2 => .ok (.bool (!pyEq vl vr)) ns2
          | r => r
        | r => r
      | "<" =>
        match eval_ast fuel left lexical_scope name_space with
        | .ok vl ns1 =>
          match eval_ast fuel right lexical_scope ns1 with
          | .ok vr ns2 =>
            match pyLt vl vr with
            | some b => .ok (.bool b) ns2
            | none => .err .typeError ns2
          | r => r
        | r => r
      | ">" =>
        match eval_ast fuel left lexical_scope name_space with
        | .ok vl ns1 =>
          match eval_ast fuel right lexical_scope ns1 with
          | .ok vr ns2 =>
            match pyLt vr vl with
            | some b => .ok (.bool b) ns2
            | none => .err .typeError ns2
          | r => r
        | r => r
      | "&&" =>
        -- `bool(eval_ast(left) and eval_ast(right))`: Python's `and`
        -- short-circuits, so a falsy left operand is the value of the
        -- conjunction and the right operand is never evaluated.
        match eval_ast fuel left lexical_scope name_space with
        | .ok vl ns1 =>
          if truthy vl then
            match eval_ast fuel right lexical_scope ns1 with
            | .ok vr ns2 => .ok (.bool (truthy vr)) ns2
            | r => r
          else .ok (.bool false) ns1
        | r => r
      | "||" =>
        -- `bool(eval_ast(left) or eval_ast(right))`: `or`
        -- short-circuits on a truthy left operand.
        match eval_ast fuel left lexical_scope name_space with
        | .ok vl ns1 =>
          if truthy vl then .ok (.bool true) ns1
          else
            match eval_ast fuel right lexical_scope ns1 with
            | .ok vr ns2 => .ok (.bool (truthy vr)) ns2
            | r => r
        | r => r
      | _ => .err .programNotSupported name_space
    | .if_statement condition if_exp else_exp =>
      match eval_ast fuel condition lexical_scope name_space with
      | .ok v ns1 =>
        if truthy v then eval_ast fuel if_exp lexical_scope ns1
        else eval_ast fuel else_exp lexical_scope ns1
      | r => r
    | .while_loop condition body =>
      match eval_ast fuel condition lexical_scope name_space with
      | .ok v ns1 =>
        if truthy v then
          match eval_ast fuel body lexical_scope ns1 with
          | .ok _ ns2 =>
            eval_ast fuel (.while_loop condition body) lexical_scope ns2
          | r => r
        else .ok (.num 0) ns1
      | r => r
    | .block exps =>
      -- `local_namespace = dict(name_space)` then the `for exp in exps`
      -- loop over the copy; an exception leaves the enclosing
      -- namespace untouched (the writes all went to the copy).
      match exps.foldl
          (fun (acc : Res) (exp : AST) =>
            match acc with
            | .ok _ lns => eval_ast fuel exp lexical_scope lns
            | r => r)
          (Res.ok (.num 0) name_space) with
      | .ok _ lns => .ok (.num 0) (mergeBack name_space lns)
      | .err e _ => .err e name_space
      | .timeout => .timeout
termination_by structural fuel _ast => fuel

/-- The body of the `block` case's `for` loop, as a standalone
definition: the expressions evaluated in order against the local copy
of the namespace (which starts as the enclosing namespace itself, since
the dict copy is value-equal to the original). -/
def eval_block (fuel : Nat) (exps : List AST) (lexical_scope : Env)
    (local_namespace : Env) : Res :=
  exps.foldl
    (fun (acc : Res) (exp : AST) =>
      match acc with
      | .ok _ lns => eval_ast fuel exp lexical_scope lns
      | r => r)
    (.ok (.num 0) local_namespace)

example :
    eval_ast 2 (.binary_operation "+" (.numeric_literal 5) (.numeric_literal 10))
      emptyEnv emptyEnv = .ok (.num 15) emptyEnv := by
  norm_num +decide [eval_ast, toRatNum]

example :
    (eval_ast 1 (.get "x") emptyEnv emptyEnv).val = none := by
  norm_num +decide [eval_ast, emptyEnv, Res.val]

example :
    (eval_ast 3 (.letE "x" (.numeric_literal 4) (.binary_operation "*"
      (.let_var "x") (.numeric_literal 3))) emptyEnv emptyEnv).val
      = some (.num 12) := by
  norm_num +decide [eval_ast, toRatNum, envSet, Res.val]

/-! ## The lexer claims -/

/-- C7: tokenizing `"if 22 >= 33 then 5+3 else 8*3 end;"` with a fresh
tokenizer yields exactly Keyword(if), Num(22), Operator(>=), Num(33),
Keyword(then), Num(5), Operator(+), Num(3), Keyword(else), Num(8),
Operator(*), Num(3), Keyword(end), Operator(;), in that order, and the
iteration then ends because the stream is exhausted (the `some` of the
fuelled iteration means it terminated by `EndOfTokens`, not by running
out of fuel). -/
theorem C7_token_sequence :
    lexer.tokens 40 ("if 22 >= 33 then 5+3 else 8*3 end;".toList) =
      some [some (.Keyword "if"), some (.Num 22), some (.Operator ">="),
            some (.Num 33), some (.Keyword "then"), some (.Num 5),
            some (.Operator "+"), some (.Num 3), some (.Keyword "else"),
            some (.Num 8), some (.Operator "*"), some (.Num 3),
            some (.Keyword "end"), some (.Operator ";")] := by
  decide

/-- C5 (the code against the claim): on input `"&&"` (and `"||"`),
`next_token` does NOT return `Operator("and")` (resp. `Operator("or")`):
the characters `&` and `|` are missing from the `operators` dispatch
list, so `next_token`'s `match` falls through and returns no token at
all, with the first character consumed; the translation the claim
describes sits unreachable inside `lexer.operator`, which would indeed
produce `Operator("and")`/`Operator("or")` were it ever called on these
characters. -/
theorem C5_amp_pipe_not_dispatched :
    lexer.next_token ['&', '&'] = .tok none ['&'] ∧
    lexer.next_token ['|', '|'] = .tok none ['|'] ∧
    lexer.next_token ['&', 'x'] = .tok none ['x'] ∧
    lexer.operator ['&'] '&' = .tok (some (.Operator "and")) [] ∧
    lexer.operator ['|'] '|' = .tok (some (.Operator "or")) [] ∧
    lexer.operator ['x'] '&' = .tok (some (.Operator "&")) ['x'] ∧
    operators.contains "&" = false ∧ operators.contains "|" = false := by
  decide

/-- C6 (counterexample): on the two-token input `"1 2"` with a fresh
lexer (no saved token), one `advance()` leaves the raw stream fully
consumed (both tokens were scanned), yet the `peek_token()` right after
it returns `Num 1` — the token `advance` was supposed to have consumed —
and not the stream's next token `Num 2` that the claim promises. -/
theorem C6_counterexample :
    (lexer.peek_token (lexer.advance (lexerFromStream "1 2".toList)).2).1
        = some (.Num 1) ∧
    (lexer.peek_token (lexer.advance (lexerFromStream "1 2".toList)).2).1
        ≠ some (.Num 2) ∧
    (lexer.advance (lexerFromStream "1 2".toList)).2.stream = [] := by
  decide

/-- C6 (amended): for a lexer state with no saved token whose stream
holds at least two more tokens, `advance()` scans BOTH of them: the
first is stored in the save slot (by the inner `peek_token` call) and
the second is scanned by the extra raw `next_token` call and thrown
away; the `peek_token()` immediately afterwards therefore returns the
first token again, and the second token is never delivered to any
caller. -/
theorem C6_advance_double_consume (l : Lexer) (t1 t2 : TokenType)
    (s1 s2 : LexStream)
    (hsave : l.save = none)
    (h1 : lexer.next_token l.stream = .tok (some t1) s1)
    (h2 : lexer.next_token s1 = .tok (some t2) s2) :
    lexer.advance l = (none, { stream := s2, save := some t1 }) ∧
    (lexer.peek_token { stream := s2, save := some t1 }).1 = some t1 := by
  constructor
  · rw [lexer.advance, hsave]
    simp only [lexer.peek_token, hsave, h1, h2]
  · rfl

/-- C6 (witness for the amended theorem at the input `"1 2"`). -/
theorem C6_advance_double_consume_witness :
    lexer.advance (lexerFromStream "1 2".toList) =
      (none, { stream := [], save := some (.Num 1) }) ∧
    (lexer.peek_token { stream := [], save := some (.Num 1) }).1
        = some (.Num 1) :=
  C6_advance_double_consume (lexerFromStream "1 2".toList)
    (.Num 1) (.Num 2) " 2".toList [] rfl (by decide) (by decide)

/-- C9 (counterexample): the failure on an unterminated string literal
is the very same `EndOfTokens` error that signals reading past the end
of the input — the `lexer.string` scanner catches the end-of-input
`EndOfTokens` and re-raises `EndOfTokens` itself, and no distinct
unterminated-string error exists anywhere in the code (the lexer's
whole error taxonomy is `EndOfTokens` and `TokenError`). -/
theorem C9_counterexample :
    lexer.next_token ('\"' :: "abc".toList) = .fail .EndOfTokens [] ∧
    lexer.next_token [] = .fail .EndOfTokens [] := by
  decide

/-- Helper for C9: scanning a string body that never closes its quote
ends in `EndOfTokens` with the stream exhausted. -/
theorem string_no_quote (cs : List Char) (acc : String) (h : '\"' ∉ cs) :
    lexer.string cs acc = .fail .EndOfTokens [] := by
  induction cs generalizing acc with
  | nil => rfl
  | cons c rest ih =>
    simp only [List.mem_cons, not_or] at h
    rw [lexer.string, if_neg (fun hc => h.1 hc.symm)]
    exact ih _ h.2

/-- C9 (amended): for every input in which a string literal is opened
with a double quote and no closing double quote follows, tokenization
fails — but with the same `EndOfTokens` error raised at end of input,
not with a distinct unterminated-string error. -/
theorem C9_unterminated (cs : List Char) (h : '\"' ∉ cs) :
    lexer.next_token ('\"' :: cs) = .fail .EndOfTokens [] := by
  rw [lexer.next_token]
  norm_num +decide
  exact string_no_quote cs "" h

/-- C9 (witness for the amended theorem at the input `"abc`). -/
theorem C9_unterminated_witness :
    lexer.next_token ('\"' :: "abc".toList) = .fail .EndOfTokens [] :=
  C9_unterminated "abc".toList (by decide)

/-! ## The evaluator claims -/

/-- C1 (counterexample): with a falsy left operand, `&&` never touches
its right operand: `false && get("z")` evaluates to `False` with no
error, even though evaluating `get("z")` alone (the namespace is empty)
fails with the undefined-variable error the claim says must still
occur; symmetrically `true || get("z")` evaluates to `True`. -/
theorem C1_counterexample :
    eval_ast 3 (.binary_operation "&&" (.bool_literal false) (.get "z"))
      emptyEnv emptyEnv = .ok (.bool false) emptyEnv ∧
    eval_ast 3 (.get "z") emptyEnv emptyEnv
      = .err .undefinedVariable emptyEnv ∧
    eval_ast 3 (.binary_operation "||" (.bool_literal true) (.get "z"))
      emptyEnv emptyEnv = .ok (.bool true) emptyEnv := by
  refine ⟨?_, ?_, ?_⟩ <;> rfl

/-- C1 (amended): `&&` and `||` short-circuit exactly as Python's `and`
and `or` do.  With the left operand evaluated to `v` (leaving namespace
`ns1`): a falsy `v` makes `&&` return `False` at `ns1` without ever
evaluating the right operand (its side effects and errors are
suppressed); a truthy `v` makes `||` return `True` at `ns1` likewise;
in the remaining two cases the right operand is evaluated (left first,
then right) and the truth value of its result is returned. -/
theorem C1_short_circuit (fuel : Nat) (left right : AST) (scope ns : Env)
    (v : Value) (ns1 : Env)
    (h : eval_ast fuel left scope ns = .ok v ns1) :
    (truthy v = false →
      eval_ast (fuel + 1) (.binary_operation "&&" left right) scope ns
        = .ok (.bool false) ns1) ∧
    (truthy v = true →
      eval_ast (fuel + 1) (.binary_operation "||" left right) scope ns
        = .ok (.bool true) ns1) ∧
    (truthy v = true →
      eval_ast (fuel + 1) (.binary_operation "&&" left right) scope ns
        = match eval_ast fuel right scope ns1 with
          | .ok w ns2 => .ok (.bool (truthy w)) ns2
          | r => r) ∧
    (truthy v = false →
      eval_ast (fuel + 1) (.binary_operation "||" left right) scope ns
        = match eval_ast fuel right scope ns1 with
          | .ok w ns2 => .ok (.bool (truthy w)) ns2
          | r => r) := by
  refine ⟨fun ht => ?_, fun ht => ?_, fun ht => ?_, fun ht => ?_⟩ <;>
    rw [eval_ast] <;> simp only [h, ht] <;> rfl

/-- C1 (witness for the amended theorem: `false && get("z")` returns
`False` without evaluating the erroring right operand). -/
theorem C1_short_circuit_witness :
    eval_ast 3 (.binary_operation "&&" (.bool_literal false) (.get "z"))
      emptyEnv emptyEnv = .ok (.bool false) emptyEnv :=
  (C1_short_circuit 2 (.bool_literal false) (.get "z") emptyEnv emptyEnv
    (.bool false) emptyEnv rfl).1 rfl

/-- C3: dividing one numeric literal by another nonzero numeric literal
yields the exact rational quotient (the whole computation is on
`Fraction`s, with no floating point anywhere), and dividing by the
numeric literal `0` fails with the `DivisionByZero` error. -/
theorem C3_division_exact (fuel : Nat) (scope ns : Env) (a b : ℚ) :
    (b ≠ 0 →
      eval_ast (fuel + 2) (.binary_operation "/" (.numeric_literal a)
        (.numeric_literal b)) scope ns = .ok (.num (a / b)) ns) ∧
    eval_ast (fuel + 2) (.binary_operation "/" (.numeric_literal a)
        (.numeric_literal 0)) scope ns = .err .divisionByZero ns := by
  constructor
  · intro hb
    rw [eval_ast]
    simp [eval_ast, pyZero, toRatNum, hb]
  · rw [eval_ast]
    simp [eval_ast, pyZero]

/-- C3 (witness at `a = 6`, `b = 3`). -/
theorem C3_division_exact_witness :
    (6 : ℚ) ≠ 0 ∧
    eval_ast 3 (.binary_operation "/" (.numeric_literal 6)
      (.numeric_literal 3)) emptyEnv emptyEnv = .ok (.num (6 / 3)) emptyEnv :=
  ⟨by norm_num,
   (C3_division_exact 1 emptyEnv emptyEnv 6 3).1 (by norm_num)⟩

/-- C4: the division node evaluates its divisor twice.  First it is
evaluated under an EMPTY lexical scope and EMPTY namespace (the
defaults of the recursive `eval_ast(right)` call), and that evaluation
alone decides the zero test — an error there propagates, and a zero
value there raises `DivisionByZero`, regardless of the real
environments.  Only then are the dividend and the divisor evaluated
under the actual scope and namespace, and the quotient is computed
from THOSE values. -/
theorem C4_divisor_double_evaluation (fuel : Nat) (left right : AST)
    (scope ns : Env) :
    (∀ e ns0, eval_ast fuel right emptyEnv emptyEnv = .err e ns0 →
      eval_ast (fuel + 1) (.binary_operation "/" left right) scope ns
        = .err e ns) ∧
    (∀ v ns0, eval_ast fuel right emptyEnv emptyEnv = .ok v ns0 →
      pyZero v = true →
      eval_ast (fuel + 1) (.binary_operation "/" left right) scope ns
        = .err .divisionByZero ns) ∧
    (∀ v ns0 vl ns1 vr ns2,
      eval_ast fuel right emptyEnv emptyEnv = .ok v ns0 →
      pyZero v = false →
      eval_ast fuel left scope ns = .ok vl ns1 →
      eval_ast fuel right scope ns1 = .ok vr ns2 →
      eval_ast (fuel + 1) (.binary_operation "/" left right) scope ns
        = match toRatNum vl, toRatNum vr with
          | some x, some y =>
            if y = 0 then .err .zeroDivisionError ns2
            else .ok (.num (x / y)) ns2
          | _, _ => .err .typeError ns2) := by
  refine ⟨fun e ns0 h => ?_, fun v ns0 h hz => ?_,
    fun v ns0 vl ns1 vr ns2 h hz hl hr => ?_⟩
  · rw [eval_ast]; simp only [h]
  · rw [eval_ast]; simp only [h, hz]; rfl
  · rw [eval_ast]; simp only [h, hz, hl, hr]; rfl

/-- C4 (witness): with namespace `x ↦ 0`, dividing by `get("x")` does
not raise `DivisionByZero` even though the divisor's actual value is
zero — the zero test ran `get("x")` against the empty namespace, whose
`UndefinedVariable` error is what propagates. -/
theorem C4_divisor_double_evaluation_witness :
    eval_ast 3 (.binary_operation "/" (.numeric_literal 1) (.get "x"))
      emptyEnv (envSet emptyEnv "x" (.num 0))
      = .err .undefinedVariable (envSet emptyEnv "x" (.num 0)) :=
  (C4_divisor_double_evaluation 2 (.numeric_literal 1) (.get "x")
    emptyEnv (envSet emptyEnv "x" (.num 0))).1
    .undefinedVariable emptyEnv rfl

/-- C10: `block` evaluation is atomic with respect to the enclosing
namespace on error: whenever evaluating a block results in an error,
the namespace reported to the caller is exactly the namespace the block
started from — every write inside the block went to the local copy,
and the merge-back only happens after all expressions succeed. -/
theorem C10_block_error_atomic (fuel : Nat) (exps : List AST)
    (scope ns ns' : Env) (e : EvalError)
    (h : eval_ast fuel (.block exps) scope ns = .err e ns') :
    ns' = ns := by
  cases fuel with
  | zero => rw [eval_ast] at h; exact Res.noConfusion h
  | succ f =>
    rw [eval_ast] at h
    split at h
    · exact Res.noConfusion h
    · injection h with h1 h2; exact h2.symm
    · exact Res.noConfusion h

/-! ### The namespace-domain invariant

`eval_ast` never deletes a namespace key: `set` only adds or overwrites
and the block merge-back only rewrites keys already present.  The
invariant is what lets C2 speak of "the final value the key had in the
block's local namespace copy": a key of the enclosing namespace is
guaranteed to still be bound in the local copy at the end of the
block. -/

/-- Every key bound in `a` is bound in `b`. -/
def NsLe (a b : Env) : Prop := ∀ k, (a k).isSome → (b k).isSome

theorem NsLe.rfl (a : Env) : NsLe a a := fun _ h => h

theorem NsLe.trans {a b c : Env} (h1 : NsLe a b) (h2 : NsLe b c) :
    NsLe a c := fun k h => h2 k (h1 k h)

/-- A result's namespaces (value or error) extend `a`. -/
def Res.nsLe (a : Env) : Res → Prop
  | .ok _ ns => NsLe a ns
  | .err _ ns => NsLe a ns
  | .timeout => True

theorem Res.nsLe.weaken {a b : Env} {r : Res} (hab : NsLe a b)
    (h : Res.nsLe b r) : Res.nsLe a r := by
  cases r with
  | ok v ns => exact hab.trans h
  | err e ns => exact hab.trans h
  | timeout => trivial

theorem envSet_nsLe (d : Env) (key : String) (v : Value) :
    NsLe d (envSet d key v) := by
  intro k h
  unfold envSet
  by_cases hk : k = key <;> simp [hk, h]

theorem mergeBack_nsLe (ns lns : Env) : NsLe ns (mergeBack ns lns) := by
  intro k h
  unfold mergeBack
  cases hl : lns k with
  | none => simpa using h
  | some v =>
    cases ho : ns k with
    | none => simp [ho] at h
    | some w => simp

/-- The namespaces any `eval_ast` result carries extend the input
namespace (no key is ever deleted). -/
theorem eval_ast_nsLe (fuel : Nat) :
    ∀ (ast : AST) (scope ns : Env), Res.nsLe ns (eval_ast fuel ast scope ns) := by
  induction fuel with
  | zero => intro ast scope ns; rw [eval_ast]; trivial
  | succ f ih =>
    have hok : ∀ (a : AST) (s n : Env) (v : Value) (n' : Env),
        eval_ast f a s n = .ok v n' → NsLe n n' := by
      intro a s n v n' h
      have hr := ih a s n
      rw [h] at hr
      exact hr
    have herr : ∀ (a : AST) (s n : Env) (e : EvalError) (n' : Env),
        eval_ast f a s n = .err e n' → NsLe n n' := by
      intro a s n e n' h
      have hr := ih a s n
      rw [h] at hr
      exact hr
    intro ast scope ns
    cases ast with
    | numeric_literal q => rw [eval_ast]; exact NsLe.rfl ns
    | bool_literal b => rw [eval_ast]; exact NsLe.rfl ns
    | string_literal s => rw [eval_ast]; exact NsLe.rfl ns
    | let_var name =>
      rw [eval_ast]
      cases scope name with
      | some v => exact NsLe.rfl ns
      | none => exact NsLe.rfl ns
    | mut_var name =>
      rw [eval_ast]
      cases ns name with
      | some v => exact NsLe.rfl ns
      | none => exact NsLe.rfl ns
    | get name =>
      rw [eval_ast]
      cases ns name with
      | some v => exact NsLe.rfl ns
      | none => exact NsLe.rfl ns
    | letE name e1 e2 =>
      rw [eval_ast]
      cases h1 : eval_ast f e1 scope ns with
      | ok v ns1 =>
        try dsimp only
        exact Res.nsLe.weaken (hok _ _ _ _ _ h1) (ih e2 (envSet scope name v) ns1)
      | err e ns1 => try dsimp only
                     exact herr _ _ _ _ _ h1
      | timeout => trivial
    | set name value =>
      rw [eval_ast]
      cases h1 : eval_ast f value scope ns with
      | ok v ns1 =>
        try dsimp only
        exact NsLe.trans (hok _ _ _ _ _ h1) (envSet_nsLe ns1 name v)
      | err e ns1 => try dsimp only
                     exact herr _ _ _ _ _ h1
      | timeout => trivial
    | if_statement c t e =>
      rw [eval_ast]
      cases h1 : eval_ast f c scope ns with
      | ok v ns1 =>
        try dsimp only
        by_cases hv : truthy v = true
        · rw [if_pos hv]
          exact Res.nsLe.weaken (hok _ _ _ _ _ h1) (ih t scope ns1)
        · rw [if_neg hv]
          exact Res.nsLe.weaken (hok _ _ _ _ _ h1) (ih e scope ns1)
      | err e1 ns1 => try dsimp only
                      exact herr _ _ _ _ _ h1
      | timeout => trivial
    | while_loop c b =>
      rw [eval_ast]
      cases h1 : eval_ast f c scope ns with
      | ok v ns1 =>
        try dsimp only
        by_cases hv : truthy v = true
        · rw [if_pos hv]
          cases h2 : eval_ast f b scope ns1 with
          | ok w ns2 =>
            try dsimp only
            exact Res.nsLe.weaken
              ((hok _ _ _ _ _ h1).trans (hok _ _ _ _ _ h2))
              (ih (.while_loop c b) scope ns2)
          | err e ns2 =>
            try dsimp only
            exact (hok _ _ _ _ _ h1).trans (herr _ _ _ _ _ h2)
          | timeout => trivial
        · rw [if_neg hv]
          exact hok _ _ _ _ _ h1
      | err e ns1 => try dsimp only
                     exact herr _ _ _ _ _ h1
      | timeout => trivial
    | block exps =>
      rw [eval_ast]
      split
      · exact mergeBack_nsLe ns _
      · exact NsLe.rfl ns
      · trivial
    | binary_operation op l r =>
      by_cases h01 : op = "+"
      · subst h01; rw [eval_ast]
        cases h1 : eval_ast f l scope ns with
        | ok vl ns1 =>
          try dsimp only
          cases h2 : eval_ast f r scope ns1 with
          | ok vr ns2 =>
            try dsimp only
            have h12 := (hok _ _ _ _ _ h1).trans (hok _ _ _ _ _ h2)
            cases toRatNum vl <;> cases toRatNum vr <;> (try dsimp only) <;>
              exact h12
          | err e ns2 =>
            try dsimp only
            exact (hok _ _ _ _ _ h1).trans (herr _ _ _ _ _ h2)
          | timeout => trivial
        | err e ns1 =>
          try dsimp only
          exact herr _ _ _ _ _ h1
        | timeout => trivial
      by_cases h02 : op = "-"
      · subst h02; rw [eval_ast]
        cases h1 : eval_ast f l scope ns with
        | ok vl ns1 =>
          try dsimp only
          cases h2 : eval_ast f r scope ns1 with
          | ok vr ns2 =>
            try dsimp only
            have h12 := (hok _ _ _ _ _ h1).trans (hok _ _ _ _ _ h2)
            cases toRatNum vl <;> cases toRatNum vr <;> (try dsimp only) <;>
              exact h12
          | err e ns2 =>
            try dsimp only
            exact (hok _ _ _ _ _ h1).trans (herr _ _ _ _ _ h2)
          | timeout => trivial
        | err e ns1 =>
          try dsimp only
          exact herr _ _ _ _ _ h1
        | timeout => trivial
      by_cases h03 : op = "*"
      · subst h03; rw [eval_ast]
        cases h1 : eval_ast f l scope ns with
        | ok vl ns1 =>
          try dsimp only
          cases h2 : eval_ast f r scope ns1 with
          | ok vr ns2 =>
            try dsimp only
            have h12 := (hok _ _ _ _ _ h1).trans (hok _ _ _ _ _ h2)
            cases toRatNum vl <;> cases toRatNum vr <;> (try dsimp only) <;>
              exact h12
          | err e ns2 =>
            try dsimp only
            exact (hok _ _ _ _ _ h1).trans (herr _ _ _ _ _ h2)
          | timeout => trivial
        | err e ns1 =>
          try dsimp only
          exact herr _ _ _ _ _ h1
        | timeout => trivial
      by_cases h04 : op = "/"
      · subst h04; rw [eval_ast]
        cases h0 : eval_ast f r emptyEnv emptyEnv with
        | ok v0 ns0 =>
          try dsimp only
          by_cases hz : pyZero v0 = true
          · rw [if_pos hz]
            exact NsLe.rfl ns
          · rw [if_neg hz]
            cases h1 : eval_ast f l scope ns with
            | ok vl ns1 =>
              try dsimp only
              cases h2 : eval_ast f r scope ns1 with
              | ok vr ns2 =>
                try dsimp only
                have h12 := (hok _ _ _ _ _ h1).trans (hok _ _ _ _ _ h2)
                cases toRatNum vl with
                | none =>
                  cases toRatNum vr <;> (try dsimp only) <;> exact h12
                | some x =>
                  cases toRatNum vr with
                  | none => try dsimp only
                            exact h12
                  | some y =>
                    try dsimp only
                    by_cases hy : y = 0
                    · rw [if_pos hy]; exact h12
                    · rw [if_neg hy]; exact h12
              | err e ns2 =>
                try dsimp only
                exact (hok _ _ _ _ _ h1).trans (herr _ _ _ _ _ h2)
              | timeout => trivial
            | err e ns1 =>
              try dsimp only
              exact herr _ _ _ _ _ h1
            | timeout => trivial
        | err e ns0 =>
          try dsimp only
          exact NsLe.rfl ns
        | timeout => trivial
      by_cases h05 : op = "**"
      · subst h05; rw [eval_ast]
        cases h1 : eval_ast f l scope ns with
        | ok vl ns1 =>
          try dsimp only
          cases h2 : eval_ast f r scope ns1 with
          | ok vr ns2 =>
            try dsimp only
            have h12 := (hok _ _ _ _ _ h1).trans (hok _ _ _ _ _ h2)
            cases hL : toRatNum vl with
            | none =>
              cases toRatNum vr <;> (try dsimp only) <;> exact h12
            | some x =>
              cases hR : toRatNum vr with
              | none => try dsimp only
                        exact h12
              | some y =>
                try dsimp only
                by_cases hd : y.den = 1
                · rw [if_pos hd]
                  by_cases hn : 0 ≤ y.num
                  · rw [if_pos hn]; exact h12
                  · rw [if_neg hn]
                    by_cases hx : x = 0
                    · rw [if_pos hx]; exact h12
                    · rw [if_neg hx]; exact h12
                · rw [if_neg hd]; exact h12
          | err e ns2 =>
            try dsimp only
            exact (hok _ _ _ _ _ h1).trans (herr _ _ _ _ _ h2)
          | timeout => trivial
        | err e ns1 =>
          try dsimp only
          exact herr _ _ _ _ _ h1
        | timeout => trivial
      by_cases h06 : op = "=="
      · subst h06; rw [eval_ast]
        cases h1 : eval_ast f l scope ns with
        | ok vl ns1 =>
          try dsimp only
          cases h2 : eval_ast f r scope ns1 with
          | ok vr ns2 =>
            try dsimp only
            have h12 := (hok _ _ _ _ _ h1).trans (hok _ _ _ _ _ h2)
            exact h12
          | err e ns2 =>
            try dsimp only
            exact (hok _ _ _ _ _ h1).trans (herr _ _ _ _ _ h2)
          | timeout => trivial
        | err e ns1 =>
          try dsimp only
          exact herr _ _ _ _ _ h1
        | timeout => trivial
      by_cases h07 : op = "!="
      · subst h07; rw [eval_ast]
        cases h1 : eval_ast f l scope ns with
        | ok vl ns1 =>
          try dsimp only
          cases h2 : eval_ast f r scope ns1 with
          | ok vr ns2 =>
            try dsimp only
            have h12 := (hok _ _ _ _ _ h1).trans (hok _ _ _ _ _ h2)
            exact h12
          | err e ns2 =>
            try dsimp only
            exact (hok _ _ _ _ _ h1).trans (herr _ _ _ _ _ h2)
          | timeout => trivial
        | err e ns1 =>
          try dsimp only
          exact herr _ _ _ _ _ h1
        | timeout => trivial
      by_cases h08 : op = "<"
      · subst h08; rw [eval_ast]
        cases h1 : eval_ast f l scope ns with
        | ok vl ns1 =>
          try dsimp only
          cases h2 : eval_ast f r scope ns1 with
          | ok vr ns2 =>
            try dsimp only
            have h12 := (hok _ _ _ _ _ h1).trans (hok _ _ _ _ _ h2)
            cases pyLt vl vr <;> (try dsimp only) <;> exact h12
          | err e ns2 =>
            try dsimp only
            exact (hok _ _ _ _ _ h1).trans (herr _ _ _ _ _ h2)
          | timeout => trivial
        | err e ns1 =>
          try dsimp only
          exact herr _ _ _ _ _ h1
        | timeout => trivial
      by_cases h09 : op = ">"
      · subst h09; rw [eval_ast]
        cases h1 : eval_ast f l scope ns with
        | ok vl ns1 =>
          try dsimp only
          cases h2 : eval_ast f r scope ns1 with
          | ok vr ns2 =>
            try dsimp only
            have h12 := (hok _ _ _ _ _ h1).trans (hok _ _ _ _ _ h2)
            cases pyLt vr vl <;> (try dsimp only) <;> exact h12
          | err e ns2 =>
            try dsimp only
            exact (hok _ _ _ _ _ h1).trans (herr _ _ _ _ _ h2)
          | timeout => trivial
        | err e ns1 =>
          try dsimp only
          exact herr _ _ _ _ _ h1
        | timeout => trivial
      by_cases h10 : op = "&&"
      · subst h10; rw [eval_ast]
        cases h1 : eval_ast f l scope ns with
        | ok vl ns1 =>
          try dsimp only
          by_cases hv : truthy vl = true
          · rw [if_pos hv]
            cases h2 : eval_ast f r scope ns1 with
            | ok vr ns2 => try dsimp only
                           exact (hok _ _ _ _ _ h1).trans (hok _ _ _ _ _ h2)
            | err e ns2 => try dsimp only
                           exact (hok _ _ _ _ _ h1).trans (herr _ _ _ _ _ h2)
            | timeout => trivial
          · rw [if_neg hv]
            exact hok _ _ _ _ _ h1
        | err e ns1 =>
          try dsimp only
          exact herr _ _ _ _ _ h1
        | timeout => trivial
      by_cases h11 : op = "||"
      · subst h11; rw [eval_ast]
        cases h1 : eval_ast f l scope ns with
        | ok vl ns1 =>
          try dsimp only
          by_cases hv : truthy vl = true
          · rw [if_pos hv]
            exact hok _ _ _ _ _ h1
          · rw [if_neg hv]
            cases h2 : eval_ast f r scope ns1 with
            | ok vr ns2 => try dsimp only
                           exact (hok _ _ _ _ _ h1).trans (hok _ _ _ _ _ h2)
            | err e ns2 => try dsimp only
                           exact (hok _ _ _ _ _ h1).trans (herr _ _ _ _ _ h2)
            | timeout => trivial
        | err e ns1 =>
          try dsimp only
          exact herr _ _ _ _ _ h1
        | timeout => trivial
      -- every remaining operator string falls to `ProgramNotSupported`
      rw [eval_ast]
      · exact NsLe.rfl ns
      all_goals simp_all

/-- The `block` case of `eval_ast`, written through `eval_block`: run
the expressions against the local copy, then merge back on success and
discard the copy on error. -/
theorem eval_ast_block_eq (f : Nat) (exps : List AST) (scope ns : Env) :
    eval_ast (f + 1) (.block exps) scope ns =
      match eval_block f exps scope ns with
      | .ok _ lns => .ok (.num 0) (mergeBack ns lns)
      | .err e _ => .err e ns
      | .timeout => .timeout := by
  rw [eval_ast, eval_block]

/-- Folding the block's expression list never deletes a key either. -/
theorem eval_block_nsLe (f : Nat) (exps : List AST) (scope : Env) :
    ∀ (a : Env) (acc : Res), Res.nsLe a acc →
      Res.nsLe a (exps.foldl
        (fun (acc : Res) (exp : AST) =>
          match acc with
          | .ok _ lns => eval_ast f exp scope lns
          | r => r) acc) := by
  induction exps with
  | nil => intro a acc h; simpa using h
  | cons e rest ih =>
    intro a acc h
    rw [List.foldl_cons]
    apply ih
    cases acc with
    | ok v lns => exact Res.nsLe.weaken h (eval_ast_nsLe f e scope lns)
    | err e2 lns => exact h
    | timeout => exact h

/-- C2: when a block evaluates successfully against an enclosing
namespace `ns`, there is a final local namespace `lns` (the block's
local copy after all expressions ran) such that: every key already
present in `ns` afterwards holds exactly the value it has in `lns`
(mutations of pre-existing variables are visible outside), while every
key absent from `ns` before the block is still absent afterwards, so a
`get` of a variable first introduced inside the block fails with the
undefined-variable error. -/
theorem C2_block_visibility (f : Nat) (exps : List AST) (scope ns : Env)
    (v : Value) (ns' : Env)
    (h : eval_ast (f + 1) (.block exps) scope ns = .ok v ns') :
    ∃ w lns, eval_block f exps scope ns = .ok w lns ∧
      (∀ k, (ns k).isSome → ns' k = lns k) ∧
      (∀ k, ns k = none → ns' k = none ∧
        ∀ g, eval_ast (g + 1) (.get k) scope ns'
          = .err .undefinedVariable ns') := by
  rw [eval_ast_block_eq] at h
  cases hb : eval_block f exps scope ns with
  | timeout => rw [hb] at h; exact Res.noConfusion h
  | err e lns => rw [hb] at h; exact Res.noConfusion h
  | ok w lns =>
    rw [hb] at h
    dsimp only at h
    injection h with hv hns
    refine ⟨w, lns, rfl, ?_, ?_⟩
    · intro k hk
      rw [← hns]
      unfold mergeBack
      have hle : NsLe ns lns := by
        have := eval_block_nsLe f exps scope ns (.ok (.num 0) ns) (NsLe.rfl ns)
        rw [eval_block] at hb
        rw [hb] at this
        exact this
      obtain ⟨vl, hvl⟩ := Option.isSome_iff_exists.mp (hle k hk)
      obtain ⟨vo, hvo⟩ := Option.isSome_iff_exists.mp hk
      rw [hvl, hvo]
    · intro k hk
      have h0 : mergeBack ns lns k = none := by
        unfold mergeBack
        cases lns k <;> simp [hk]
      refine ⟨by rw [← hns]; exact h0, fun g => ?_⟩
      rw [eval_ast]
      rw [← hns, h0]

/-- C2 (witness): a block `[set a 2, set b 3]` run against `a ↦ 1`:
afterwards `a` holds `2` (the local copy's value) and `b` is still
absent, with `get b` failing. -/
theorem C2_block_visibility_witness :
    ∃ w lns,
      eval_block 2 [.set "a" (.numeric_literal 2), .set "b" (.numeric_literal 3)]
        emptyEnv (envSet emptyEnv "a" (.num 1)) = .ok w lns ∧
      (∀ k, ((envSet emptyEnv "a" (.num 1)) k).isSome →
        (eval_ast 3 (.block [.set "a" (.numeric_literal 2),
          .set "b" (.numeric_literal 3)]) emptyEnv
          (envSet emptyEnv "a" (.num 1))).nsD k = lns k) ∧
      (∀ k, (envSet emptyEnv "a" (.num 1)) k = none →
        (eval_ast 3 (.block [.set "a" (.numeric_literal 2),
          .set "b" (.numeric_literal 3)]) emptyEnv
          (envSet emptyEnv "a" (.num 1))).nsD k = none ∧
        ∀ g, eval_ast (g + 1) (.get k) emptyEnv
          ((eval_ast 3 (.block [.set "a" (.numeric_literal 2),
            .set "b" (.numeric_literal 3)]) emptyEnv
            (envSet emptyEnv "a" (.num 1))).nsD)
          = .err .undefinedVariable
            ((eval_ast 3 (.block [.set "a" (.numeric_literal 2),
              .set "b" (.numeric_literal 3)]) emptyEnv
              (envSet emptyEnv "a" (.num 1))).nsD)) :=
  C2_block_visibility 2
    [.set "a" (.numeric_literal 2), .set "b" (.numeric_literal 3)]
    emptyEnv (envSet emptyEnv "a" (.num 1)) (.num 0)
    ((eval_ast 3 (.block [.set "a" (.numeric_literal 2),
      .set "b" (.numeric_literal 3)]) emptyEnv
      (envSet emptyEnv "a" (.num 1))).nsD) rfl

/-- C10 (witness): a block that writes `a ↦ 2` and then reads the
undefined `b` errors, and the namespace it leaves is exactly the
original `a ↦ 1`. -/
theorem C10_block_error_atomic_witness :
    (eval_ast 3 (.block [.set "a" (.numeric_literal 2), .get "b"])
      emptyEnv (envSet emptyEnv "a" (.num 1))).nsD
      = envSet emptyEnv "a" (.num 1) :=
  C10_block_error_atomic 3 [.set "a" (.numeric_literal 2), .get "b"]
    emptyEnv (envSet emptyEnv "a" (.num 1))
    ((eval_ast 3 (.block [.set "a" (.numeric_literal 2), .get "b"])
      emptyEnv (envSet emptyEnv "a" (.num 1))).nsD)
    .undefinedVariable rfl

/-! ### C8: the factorial round trip of `test6` -/

/-- The loop condition of `test6`: `get(i) < 10`. -/
def fact_condition : AST :=
  .binary_operation "<" (.get "i") (.numeric_literal 10)

/-- The loop body of `test6`: `{ set i (get i + 1); set j (get j * get i) }`. -/
def fact_body : AST :=
  .block [.set "i" (.binary_operation "+" (.get "i") (.numeric_literal 1)),
          .set "j" (.binary_operation "*" (.get "j") (.get "i"))]

/-- The `while` loop of `test6`. -/
def fact_loop : AST := .while_loop fact_condition fact_body

/-- The namespace after `Set(i, 1)` against the fresh empty namespace. -/
def fact_ns1 : Env :=
  (eval_ast 2 (.set "i" (.numeric_literal 1)) emptyEnv emptyEnv).nsD

/-- The namespace after the further `Set(j, 1)`. -/
def fact_ns2 : Env :=
  (eval_ast 2 (.set "j" (.numeric_literal 1)) emptyEnv fact_ns1).nsD

/-- The canonical shape of the loop's namespace: `i ↦ I`, `j ↦ J`. -/
def canon (I J : ℚ) : Env :=
  fun k =>
    if k = "i" then some (.num I)
    else if k = "j" then some (.num J)
    else none

/-- Evaluating the loop condition `get(i) < 10` on `canon I J`. -/
theorem fact_cond_eval (f : Nat) (I J : ℚ) :
    eval_ast (f + 2) fact_condition emptyEnv (canon I J)
      = .ok (.bool (decide (I < 10))) (canon I J) := by
  rw [fact_condition, eval_ast]
  simp [eval_ast, canon, pyLt, toRatNum]

/-- Evaluating the body's first assignment's value `get(i) + 1`. -/
theorem fact_addi_eval (f : Nat) (I J : ℚ) :
    eval_ast (f + 2) (.binary_operation "+" (.get "i") (.numeric_literal 1))
      emptyEnv (canon I J) = .ok (.num (I + 1)) (canon I J) := by
  rw [eval_ast]
  simp [eval_ast, canon, toRatNum]

/-- Evaluating the body's second assignment's value `get(j) * get(i)`
after the local copy's `i` was updated to `I + 1`. -/
theorem fact_multji_eval (f : Nat) (I J : ℚ) :
    eval_ast (f + 2) (.binary_operation "*" (.get "j") (.get "i"))
      emptyEnv (envSet (canon I J) "i" (.num (I + 1)))
      = .ok (.num (J * (I + 1))) (envSet (canon I J) "i" (.num (I + 1))) := by
  rw [eval_ast]
  simp [eval_ast, canon, envSet, toRatNum]

/-- Evaluating the loop body on `canon I J`: the block's local copy
ends with `i ↦ I+1`, `j ↦ J*(I+1)`, and merge-back (both keys
pre-exist) updates both in the enclosing namespace. -/
theorem fact_body_eval (f : Nat) (I J : ℚ) :
    eval_ast (f + 4) fact_body emptyEnv (canon I J)
      = .ok (.num 0) (canon (I + 1) (J * (I + 1))) := by
  have e1 : eval_ast (f + 3)
      (.set "i" (.binary_operation "+" (.get "i") (.numeric_literal 1)))
      emptyEnv (canon I J)
      = .ok (.num 0) (envSet (canon I J) "i" (.num (I + 1))) := by
    rw [eval_ast]
    rw [fact_addi_eval f I J]
  have e2 : eval_ast (f + 3)
      (.set "j" (.binary_operation "*" (.get "j") (.get "i")))
      emptyEnv (envSet (canon I J) "i" (.num (I + 1)))
      = .ok (.num 0)
          (envSet (envSet (canon I J) "i" (.num (I + 1))) "j"
            (.num (J * (I + 1)))) := by
    rw [eval_ast]
    rw [fact_multji_eval f I J]
  have hb : eval_block (f + 3)
      [.set "i" (.binary_operation "+" (.get "i") (.numeric_literal 1)),
       .set "j" (.binary_operation "*" (.get "j") (.get "i"))]
      emptyEnv (canon I J)
      = .ok (.num 0)
          (envSet (envSet (canon I J) "i" (.num (I + 1))) "j"
            (.num (J * (I + 1)))) := by
    rw [eval_block, List.foldl_cons]
    dsimp only
    rw [e1, List.foldl_cons]
    dsimp only
    rw [e2, List.foldl_nil]
  have hbe := eval_ast_block_eq (f + 3)
    [.set "i" (.binary_operation "+" (.get "i") (.numeric_literal 1)),
     .set "j" (.binary_operation "*" (.get "j") (.get "i"))]
    emptyEnv (canon I J)
  norm_num at hbe
  rw [fact_body, hbe, hb]
  dsimp only
  congr 1
  funext k
  by_cases hi : k = "i"
  · subst hi; simp [mergeBack, envSet, canon]
  by_cases hj : k = "j"
  · subst hj; simp [mergeBack, envSet, canon]
  simp [mergeBack, envSet, canon, hi, hj]

/-- One iteration of the loop from `canon I J` with `I < 10`. -/
theorem fact_step (g : Nat) (I J : ℚ) (h : I < 10) :
    eval_ast (g + 5) fact_loop emptyEnv (canon I J)
      = eval_ast (g + 4) fact_loop emptyEnv (canon (I + 1) (J * (I + 1))) := by
  have hc := fact_cond_eval (g + 2) I J
  have hb := fact_body_eval g I J
  norm_num at hc hb
  simp only [fact_loop]
  rw [eval_ast, hc]
  dsimp only [truthy]
  rw [if_pos (by simpa using h), hb]

/-- Loop exit: with `I ≥ 10` the condition is falsy and the loop
returns the zero rational, leaving the namespace unchanged. -/
theorem fact_done (g : Nat) (I J : ℚ) (h : ¬ I < 10) :
    eval_ast (g + 5) fact_loop emptyEnv (canon I J)
      = .ok (.num 0) (canon I J) := by
  have hc := fact_cond_eval (g + 2) I J
  norm_num at hc
  simp only [fact_loop]
  rw [eval_ast, hc]
  dsimp only [truthy]
  rw [if_neg (by simpa using h)]

/-- C8: starting from the empty namespace, after `Set(i, 1)` and
`Set(j, 1)`, the loop `while i < 10 { set i (i+1); set j (j*i) }`
evaluates to the zero rational, and `get(j)` against the resulting
namespace yields exactly the rational `3628800` (ten factorial). -/
theorem C8_factorial :
    (eval_ast 14 fact_loop emptyEnv fact_ns2).val = some (.num 0) ∧
    (eval_ast 2 (.get "j") emptyEnv
      (eval_ast 14 fact_loop emptyEnv fact_ns2).nsD).val
      = some (.num 3628800) := by
  have hns : fact_ns2 = canon 1 1 := by
    funext k
    by_cases hi : k = "i"
    · subst hi
      simp [fact_ns2, fact_ns1, eval_ast, envSet, emptyEnv, canon, Res.nsD]
    by_cases hj : k = "j"
    · subst hj
      simp [fact_ns2, fact_ns1, eval_ast, envSet, emptyEnv, canon, Res.nsD]
    simp [fact_ns2, fact_ns1, eval_ast, envSet, emptyEnv, canon, Res.nsD,
      hi, hj]
  have s1 : eval_ast 14 fact_loop emptyEnv (canon 1 1)
      = eval_ast 13 fact_loop emptyEnv (canon 2 2) := by
    have hsv := fact_step 9 1 1 (by norm_num); norm_num at hsv; exact hsv
  have s2 : eval_ast 13 fact_loop emptyEnv (canon 2 2)
      = eval_ast 12 fact_loop emptyEnv (canon 3 6) := by
    have hsv := fact_step 8 2 2 (by norm_num); norm_num at hsv; exact hsv
  have s3 : eval_ast 12 fact_loop emptyEnv (canon 3 6)
      = eval_ast 11 fact_loop emptyEnv (canon 4 24) := by
    have hsv := fact_step 7 3 6 (by norm_num); norm_num at hsv; exact hsv
  have s4 : eval_ast 11 fact_loop emptyEnv (canon 4 24)
      = eval_ast 10 fact_loop emptyEnv (canon 5 120) := by
    have hsv := fact_step 6 4 24 (by norm_num); norm_num at hsv; exact hsv
  have s5 : eval_ast 10 fact_loop emptyEnv (canon 5 120)
      = eval_ast 9 fact_loop emptyEnv (canon 6 720) := by
    have hsv := fact_step 5 5 120 (by norm_num); norm_num at hsv; exact hsv
  have s6 : eval_ast 9 fact_loop emptyEnv (canon 6 720)
      = eval_ast 8 fact_loop emptyEnv (canon 7 5040) := by
    have hsv := fact_step 4 6 720 (by norm_num); norm_num at hsv; exact hsv
  have s7 : eval_ast 8 fact_loop emptyEnv (canon 7 5040)
      = eval_ast 7 fact_loop emptyEnv (canon 8 40320) := by
    have hsv := fact_step 3 7 5040 (by norm_num); norm_num at hsv; exact hsv
  have s8 : eval_ast 7 fact_loop emptyEnv (canon 8 40320)
      = eval_ast 6 fact_loop emptyEnv (canon 9 362880) := by
    have hsv := fact_step 2 8 40320 (by norm_num); norm_num at hsv; exact hsv
  have s9 : eval_ast 6 fact_loop emptyEnv (canon 9 362880)
      = eval_ast 5 fact_loop emptyEnv (canon 10 3628800) := by
    have hsv := fact_step 1 9 362880 (by norm_num); norm_num at hsv; exact hsv
  have s10 : eval_ast 5 fact_loop emptyEnv (canon 10 3628800)
      = .ok (.num 0) (canon 10 3628800) := by
    have hsv := fact_done 0 10 3628800 (by norm_num); norm_num at hsv
    exact hsv
  have htot : eval_ast 14 fact_loop emptyEnv fact_ns2
      = .ok (.num 0) (canon 10 3628800) := by
    rw [hns, s1, s2, s3, s4, s5, s6, s7, s8, s9, s10]
  rw [htot]
  constructor
  · rfl
  · dsimp only [Res.nsD]
    rw [eval_ast]
    simp [canon, Res.val]

end NotPy
